import Mathlib

set_option maxHeartbeats 1000000

namespace Lemmy

/-! Shallow embedding of the visible fragment of the repository:
`crates/api_crud/src/comment/create.rs` (`CreateComment::perform`),
`crates/api_crud/src/community/delete.rs` (`DeleteCommunity::perform`) and
`crates/api/src/private_message_report/create.rs`
(`CreatePrivateMessageReport::perform`), together with a spec-modelled
fragment of the federation engine's deduplication store.

External collaborators that live outside the visible fragment (JWT
authentication, the ban / deleted-or-removed / language gates, the
notification fanout, the apub send, the storage layer's failure modes) are
represented as oracle fields of an environment record: each such field holds
the outcome the collaborator would produce during this run, and the embedded
`perform` consumes them exactly where the source calls the collaborator. -/

/-! ## Data model -/

structure Person where
  id : Nat
deriving DecidableEq, Repr

structure Post where
  id : Nat
  community_id : Nat
  locked : Bool
  deleted : Bool
  removed : Bool
  language_id : Nat
deriving DecidableEq, Repr

structure Comment where
  id : Nat
  post_id : Nat
  creator_id : Nat
  content : String
  language_id : Nat
  /-- Materialized ltree path: the chain of ancestor ids ending in the
  comment's own id. -/
  path : List Nat
  ap_id : String
  deleted : Bool
deriving DecidableEq, Repr

structure CommentInsertForm where
  content : String
  post_id : Nat
  creator_id : Nat
  language_id : Option Nat
deriving DecidableEq, Repr

structure CommentUpdateForm where
  content : Option String := none
  deleted : Option Bool := none
  ap_id : Option String := none
deriving DecidableEq, Repr

structure CommentLikeForm where
  comment_id : Nat
  post_id : Nat
  person_id : Nat
  score : Int
deriving DecidableEq, Repr

structure CommentReply where
  id : Nat
  comment_id : Nat
  read : Bool
deriving DecidableEq, Repr

structure PersonMention where
  id : Nat
  comment_id : Nat
  recipient_id : Nat
  read : Bool
deriving DecidableEq, Repr

structure Community where
  id : Nat
  name : String
  title : String
  description : Option String
  removed : Bool
  deleted : Bool
  nsfw : Bool
  hidden : Bool
deriving DecidableEq, Repr

structure CommunityUpdateForm where
  title : Option String := none
  description : Option (Option String) := none
  removed : Option Bool := none
  deleted : Option Bool := none
  nsfw : Option Bool := none
  hidden : Option Bool := none
deriving DecidableEq, Repr

structure CommunityModeratorView where
  community_id : Nat
  moderator : Person
deriving DecidableEq, Repr

structure PrivateMessage where
  id : Nat
  creator_id : Nat
  content : String
deriving DecidableEq, Repr

structure PrivateMessageReportForm where
  creator_id : Nat
  private_message_id : Nat
  original_pm_text : String
  reason : String
deriving DecidableEq, Repr

structure PrivateMessageReport where
  id : Nat
  creator_id : Nat
  private_message_id : Nat
  original_pm_text : String
  reason : String
deriving DecidableEq, Repr

/-- Ghost trace of the externally visible storage writes and federation
dispatch attempts, in program order; used to state ordering properties. -/
inductive Event where
  | commentInsert (id : Nat)
  | commentUpdate (id : Nat)
  | likeInsert (id : Nat)
  | apubDispatch
  | communityUpdate (id : Nat)
  | apubDeleteDispatch
deriving DecidableEq, Repr

/-- The storage layer's state visible to the three operations, plus the
ghost event trace. -/
structure DB where
  comments : List Comment := []
  nextCommentId : Nat := 1
  likes : List CommentLikeForm := []
  commentReplies : List CommentReply := []
  personMentions : List PersonMention := []
  communities : List Community := []
  privateMessages : List PrivateMessage := []
  privateMessageReports : List PrivateMessageReport := []
  nextReportId : Nat := 1
  trace : List Event := []
deriving DecidableEq, Repr

/-! ## Requests and responses -/

structure CreateComment where
  content : String
  post_id : Nat
  parent_id : Option Nat
  language_id : Option Nat
  form_id : Option String
  auth : String
deriving DecidableEq, Repr

structure CommentResponse where
  comment_id : Nat
  recipient_ids : List Nat
  form_id : Option String
deriving DecidableEq, Repr

structure DeleteCommunity where
  community_id : Nat
  deleted : Bool
  auth : String
deriving DecidableEq, Repr

structure CommunityResponse where
  community_id : Nat
deriving DecidableEq, Repr

structure CreatePrivateMessageReport where
  private_message_id : Nat
  reason : String
  auth : String
deriving DecidableEq, Repr

structure PrivateMessageReportResponse where
  report : PrivateMessageReport
deriving DecidableEq, Repr

/-- Result of `DeleteCommunity::perform`: unlike the other operations it can
also panic, because `community_mods[0]` indexes a vector without an
emptiness check. -/
inductive DResult (α : Type) where
  | ok (a : α)
  | err (e : String)
  | panic
deriving DecidableEq, Repr

/-! ## Storage-layer operations -/

inductive EndpointType where
  | Comment
  | Post
  | Community
deriving DecidableEq, Repr

/-- Modelled from the spec: `generate_local_apub_endpoint` lives in the
`lemmy_apub` crate, outside the visible fragment. Per the spec it mints the
object's URI id bound to the local domain: the local instance's
protocol-and-hostname joined with the object's endpoint path and id. (The
fallible URL parse of the Rust original is dropped: concatenating a valid
protocol-and-hostname with a path segment and a numeral always parses.) -/
def generate_local_apub_endpoint (endpoint_type : EndpointType) (id : String)
    (protocol_and_hostname : String) : String :=
  match endpoint_type with
  | .Comment => protocol_and_hostname ++ "/comment/" ++ id
  | .Post => protocol_and_hostname ++ "/post/" ++ id
  | .Community => protocol_and_hostname ++ "/c/" ++ id

/-- Modelled from the spec: the deleted/removed-state hard gate on the post,
an external validator from the API-common crate (not in the visible
fragment); it fails when the post is deleted or removed. -/
def check_post_deleted_or_removed (post : Post) : Except String Unit :=
  if post.deleted || post.removed then Except.error "deleted" else Except.ok ()

def applyCommentUpdateForm (c : Comment) (f : CommentUpdateForm) : Comment :=
  { c with
    content := f.content.getD c.content
    deleted := f.deleted.getD c.deleted
    ap_id := f.ap_id.getD c.ap_id }

/-- Modelled from the spec: the storage layer's insert for comments
(`Comment::create(pool, form, parent_path)`); assigns the next fresh id and
extends the parent's materialized path with it. -/
def Comment.create (db : DB) (form : CommentInsertForm)
    (parent_path : Option (List Nat)) : Comment × DB :=
  let newId := db.nextCommentId
  let c : Comment :=
    { id := newId
      post_id := form.post_id
      creator_id := form.creator_id
      content := form.content
      language_id := form.language_id.getD 0
      path := (parent_path.getD []) ++ [newId]
      ap_id := ""
      deleted := false }
  (c, { db with
        comments := db.comments ++ [c]
        nextCommentId := newId + 1
        trace := db.trace ++ [Event.commentInsert newId] })

/-- Modelled from the spec: the storage layer's update for comments; applies
only the fields present in the form, leaving the rest unchanged, and returns
the updated row (`none` when the row does not exist). -/
def Comment.update (db : DB) (cid : Nat) (f : CommentUpdateForm) :
    Option Comment × DB :=
  match db.comments.find? (fun c => c.id == cid) with
  | none => (none, db)
  | some c =>
    (some (applyCommentUpdateForm c f),
     { db with
       comments := db.comments.map
         (fun x => if x.id = cid then applyCommentUpdateForm x f else x)
       trace := db.trace ++ [Event.commentUpdate cid] })

/-- Modelled from the spec: `CommentLike::like` is the idempotent upsert of
the actor's vote on the comment (remove any previous vote by the same
person, then insert). -/
def CommentLike.like (db : DB) (form : CommentLikeForm) : DB :=
  { db with
    likes := (db.likes.filter
      (fun l => !(l.comment_id == form.comment_id && l.person_id == form.person_id))) ++ [form]
    trace := db.trace ++ [Event.likeInsert form.comment_id] }

def applyCommunityUpdateForm (c : Community) (f : CommunityUpdateForm) : Community :=
  { c with
    title := f.title.getD c.title
    description := f.description.getD c.description
    removed := f.removed.getD c.removed
    deleted := f.deleted.getD c.deleted
    nsfw := f.nsfw.getD c.nsfw
    hidden := f.hidden.getD c.hidden }

/-- Modelled from the spec: the storage layer's update for communities;
applies only the fields present in the form, leaving every other field and
every other row unchanged, and returns the updated row (`none` when the row
does not exist). -/
def Community.update (db : DB) (cid : Nat) (f : CommunityUpdateForm) :
    Option Community × DB :=
  match db.communities.find? (fun c => c.id == cid) with
  | none => (none, db)
  | some c =>
    (some (applyCommunityUpdateForm c f),
     { db with
       communities := db.communities.map
         (fun x => if x.id = cid then applyCommunityUpdateForm x f else x)
       trace := db.trace ++ [Event.communityUpdate cid] })

/-- Modelled from the spec: `PrivateMessageReport::report` inserts the
report row built from the form, assigning the next fresh report id. -/
def PrivateMessageReport.report (db : DB) (form : PrivateMessageReportForm) :
    PrivateMessageReport × DB :=
  let rep : PrivateMessageReport :=
    { id := db.nextReportId
      creator_id := form.creator_id
      private_message_id := form.private_message_id
      original_pm_text := form.original_pm_text
      reason := form.reason }
  (rep, { db with
          privateMessageReports := db.privateMessageReports ++ [rep]
          nextReportId := db.nextReportId + 1 })

/-- A later edit of a private message's content: used to state that a stored
report snapshot is insulated from subsequent edits. -/
def PrivateMessage.updateContent (db : DB) (pmId : Nat) (newContent : String) : DB :=
  { db with
    privateMessages := db.privateMessages.map
      (fun pm => if pm.id = pmId then { pm with content := newContent } else pm) }

/-- Modelled from the spec: the chat server's `do_send` is a fire-and-forget
mailbox send — it returns unit regardless of whether the message is ever
delivered, so the delivery outcome is unobservable to the caller. -/
def ChatServer.do_send (deliveryOk : Bool) : Unit := ()

/-! ## Environments: outcomes of the external collaborators -/

/-- Oracle outcomes of every external collaborator `CreateComment::perform`
calls, in source order. Each field is the result that call would produce
during this run. -/
structure CreateCommentEnv where
  /-- Outcome of `get_local_user_view_from_jwt` (the authenticated person). -/
  auth : Except String Person
  /-- Whether `LocalSite::read` succeeds. -/
  localSiteOk : Bool
  /-- The `remove_slurs` text transformation (regex from the local site). -/
  removeSlurs : String → String
  /-- Outcome of `get_post` for the request's post id. -/
  post : Except String Post
  /-- Whether `check_community_ban` passes. -/
  banOk : Bool
  /-- Whether `check_community_deleted_or_removed` passes. -/
  communityOk : Bool
  /-- Outcome of `Comment::read` for the parent comment (consulted only when
  the request carries a `parent_id`). -/
  parentRead : Except String Comment
  /-- Whether `CommunityLanguage::is_allowed_community_language` passes. -/
  languageAllowed : Bool
  /-- Whether the `Comment::create` database write succeeds. -/
  createOk : Bool
  /-- The local instance's protocol-and-hostname from the settings. -/
  protocolAndHostname : String
  /-- Whether the `Comment::update` database write succeeds. -/
  updateOk : Bool
  /-- The `scrape_text_for_mentions` scan. -/
  mentionsOf : String → List String
  /-- Outcome of `send_local_notifs` (the recipient ids on success). -/
  notifs : Except String (List Nat)
  /-- Whether the `CommentLike::like` database write succeeds. -/
  likeOk : Bool
  /-- Whether `CreateOrUpdateNote::send` (outbound federation) succeeds. -/
  apubSendOk : Bool
  /-- Whether the `CommentReply::update` database write succeeds. -/
  replyUpdateOk : Bool
  /-- Whether the `PersonMention::update` database write succeeds. -/
  mentionUpdateOk : Bool
  /-- Whether `send_comment_ws_message` succeeds (it reads the comment view
  from storage before broadcasting, and that read can fail). -/
  wsOk : Bool

/-- Oracle outcomes of the external collaborators of
`DeleteCommunity::perform`, in source order. -/
structure DeleteCommunityEnv where
  /-- Outcome of `get_local_user_view_from_jwt`. -/
  auth : Except String Person
  /-- Outcome of `CommunityModeratorView::for_community`. -/
  mods : Except String (List CommunityModeratorView)
  /-- Whether the `Community::update` database write succeeds. -/
  updateOk : Bool
  /-- Whether `send_community_ws_message` succeeds. -/
  wsOk : Bool
  /-- Whether `send_apub_delete_in_community` (outbound federation) succeeds. -/
  sendOk : Bool

/-- Oracle outcomes of the external collaborators of
`CreatePrivateMessageReport::perform`, in source order. -/
structure PMReportEnv where
  /-- Outcome of `get_local_user_view_from_jwt`. -/
  auth : Except String Person
  /-- Whether `LocalSite::read` succeeds. -/
  localSiteOk : Bool
  /-- The `check_report_reason` gate, applied to the trimmed reason. -/
  reasonValid : String → Bool
  /-- Whether the `PrivateMessageReport::report` database write succeeds. -/
  reportOk : Bool
  /-- Whether `PrivateMessageReportView::read` succeeds. -/
  viewOk : Bool
  /-- Whether the chat server eventually delivers the fanout message
  (`do_send` never reports this to the caller). -/
  chatDeliveryOk : Bool

/-! ## The operations -/

/-- Modelled from the spec: `send_comment_ws_message` from the API-common
websocket module first reads the comment view from storage (fallible), then
broadcasts it best-effort and returns the `CommentResponse`. -/
def send_comment_ws_message (env : CreateCommentEnv) (comment_id : Nat)
    (form_id : Option String) (recipient_ids : List Nat) :
    Except String CommentResponse :=
  if env.wsOk then
    Except.ok { comment_id := comment_id, recipient_ids := recipient_ids, form_id := form_id }
  else Except.error "couldnt_find_comment"

/-- The person-mention half of the parent bookkeeping of
`CreateComment::perform`: read the mention row for the parent comment and
this person (a read failure is swallowed by `if let Ok`), and mark it read
(an update failure propagates). -/
def markMentionRead (env : CreateCommentEnv) (person_id parent_id : Nat)
    (db : DB) : Except String Unit × DB :=
  match db.personMentions.find?
      (fun m => m.comment_id == parent_id && m.recipient_id == person_id) with
  | none => (Except.ok (), db)
  | some mention =>
    if env.mentionUpdateOk then
      (Except.ok (),
       { db with
         personMentions := db.personMentions.map
           (fun m => if m.id = mention.id then { m with read := true } else m) })
    else (Except.error "couldnt_update_person_mentions", db)

/-- The parent bookkeeping of `CreateComment::perform` (source lines
171–197): mark the parent's `CommentReply` row read (read failure swallowed,
update failure propagates), then the parent's `PersonMention` row. -/
def markParentRead (env : CreateCommentEnv) (person_id parent_id : Nat)
    (db : DB) : Except String Unit × DB :=
  match db.commentReplies.find? (fun r => r.comment_id == parent_id) with
  | none => markMentionRead env person_id parent_id db
  | some reply =>
    if env.replyUpdateOk then
      markMentionRead env person_id parent_id
        { db with
          commentReplies := db.commentReplies.map
            (fun r => if r.id = reply.id then { r with read := true } else r) }
    else (Except.error "couldnt_update_replies", db)

/-- The tail of `CreateComment::perform` after the federation send (source
lines 170–209): mark the parent's reply and mention rows read, then build
and broadcast the websocket response. -/
def finishComment (env : CreateCommentEnv) (person_id comment_id : Nat)
    (form_id : Option String) (recipient_ids : List Nat)
    (parent_opt : Option Comment) (db : DB) :
    Except String CommentResponse × DB :=
  match parent_opt with
  | some parent =>
    (match markParentRead env person_id parent.id db with
     | (.error e, db5) => (.error e, db5)
     | (.ok _, db5) =>
       (send_comment_ws_message env comment_id form_id recipient_ids, db5))
  | none => (send_comment_ws_message env comment_id form_id recipient_ids, db)

/-- Embedding of `CreateComment::perform`
(`crates/api_crud/src/comment/create.rs`), translated statement by
statement; every `?` of the source becomes an early error return. -/
def CreateComment.perform (env : CreateCommentEnv) (data : CreateComment)
    (db : DB) : Except String CommentResponse × DB :=
  match env.auth with
  | .error e => (.error e, db)
  | .ok local_user_person =>
  if env.localSiteOk = false then (.error "db_error", db) else
  let content_slurs_removed := env.removeSlurs data.content
  let post_id := data.post_id
  match env.post with
  | .error e => (.error e, db)
  | .ok post =>
  if env.banOk = false then (.error "community_ban", db) else
  if env.communityOk = false then (.error "deleted", db) else
  match check_post_deleted_or_removed post with
  | .error e => (.error e, db)
  | .ok _ =>
  if post.locked then (.error "locked", db) else
  let parent_opt : Option Comment :=
    match data.parent_id with
    | some _ => env.parentRead.toOption
    | none => none
  if (match parent_opt with
      | some parent => parent.post_id != post_id
      | none => false) then (.error "couldnt_create_comment", db) else
  let parent_language :=
    (parent_opt.map (fun p => p.language_id)).getD post.language_id
  let language_id := data.language_id.getD parent_language
  if env.languageAllowed = false then (.error "language_not_allowed", db) else
  let comment_form : CommentInsertForm :=
    { content := content_slurs_removed
      post_id := data.post_id
      creator_id := local_user_person.id
      language_id := some language_id }
  let parent_path := parent_opt.map (fun t => t.path)
  if env.createOk = false then (.error "couldnt_create_comment", db) else
  let created := Comment.create db comment_form parent_path
  let inserted_comment := created.1
  let db1 := created.2
  let inserted_comment_id := inserted_comment.id
  let protocol_and_hostname := env.protocolAndHostname
  let apub_id := generate_local_apub_endpoint EndpointType.Comment
    (toString inserted_comment_id) protocol_and_hostname
  if env.updateOk = false then (.error "couldnt_create_comment", db1) else
  match Comment.update db1 inserted_comment_id { ap_id := some apub_id } with
  | (none, db2) => (.error "couldnt_create_comment", db2)
  | (some updated_comment, db2) =>
  let post_id2 := post.id
  let mentions := env.mentionsOf content_slurs_removed
  match env.notifs with
  | .error e => (.error e, db2)
  | .ok recipient_ids =>
  let like_form : CommentLikeForm :=
    { comment_id := inserted_comment.id
      post_id := post_id2
      person_id := local_user_person.id
      score := 1 }
  if env.likeOk = false then (.error "couldnt_like_comment", db2) else
  let db3 := CommentLike.like db2 like_form
  let db4 := { db3 with trace := db3.trace ++ [Event.apubDispatch] }
  if env.apubSendOk = false then (.error "federation_send_failed", db4) else
  finishComment env local_user_person.id inserted_comment.id data.form_id
    recipient_ids parent_opt db4

/-- Embedding of `DeleteCommunity::perform`
(`crates/api_crud/src/community/delete.rs`), translated statement by
statement. `community_mods[0]` on an empty moderator list is a Rust panic,
rendered as `DResult.panic`. -/
def DeleteCommunity.perform (env : DeleteCommunityEnv) (data : DeleteCommunity)
    (db : DB) : DResult CommunityResponse × DB :=
  match env.auth with
  | .error e => (.err e, db)
  | .ok local_user_person =>
  match env.mods with
  | .error e => (.err e, db)
  | .ok community_mods =>
  match community_mods with
  | [] => (.panic, db)
  | m0 :: _ =>
  if local_user_person.id != m0.moderator.id then
    (.err "no_community_edit_allowed", db) else
  if env.updateOk = false then (.err "couldnt_update_community", db) else
  match Community.update db data.community_id { deleted := some data.deleted } with
  | (none, db1) => (.err "couldnt_update_community", db1)
  | (some _updated_community, db1) =>
  if env.wsOk = false then (.err "couldnt_find_community", db1) else
  let res : CommunityResponse := { community_id := data.community_id }
  let db2 := { db1 with trace := db1.trace ++ [Event.apubDeleteDispatch] }
  if env.sendOk = false then (.err "federation_send_failed", db2) else
  (.ok res, db2)

/-- Embedding of `CreatePrivateMessageReport::perform`
(`crates/api/src/private_message_report/create.rs`), translated statement by
statement; the final `do_send` is fire-and-forget. -/
def CreatePrivateMessageReport.perform (env : PMReportEnv)
    (data : CreatePrivateMessageReport) (db : DB) :
    Except String PrivateMessageReportResponse × DB :=
  match env.auth with
  | .error e => (.error e, db)
  | .ok local_user_person =>
  if env.localSiteOk = false then (.error "db_error", db) else
  let reason := data.reason.trim
  if env.reasonValid reason = false then (.error "invalid_report_reason", db) else
  let person_id := local_user_person.id
  let private_message_id := data.private_message_id
  match db.privateMessages.find? (fun pm => pm.id == private_message_id) with
  | none => (.error "couldnt_find_private_message", db)
  | some private_message =>
  let report_form : PrivateMessageReportForm :=
    { creator_id := person_id
      private_message_id := private_message_id
      original_pm_text := private_message.content
      reason := reason }
  if env.reportOk = false then (.error "couldnt_create_report", db) else
  let reported := PrivateMessageReport.report db report_form
  let report := reported.1
  let db1 := reported.2
  if env.viewOk = false then (.error "couldnt_find_report_view", db1) else
  let res : PrivateMessageReportResponse := { report := report }
  let _ := ChatServer.do_send env.chatDeliveryOk
  (.ok res, db1)

/-! ## Spec-modelled federation deduplication store (not in the visible
fragment) -/

inductive MarkResult where
  | Inserted
  | AlreadyPresent
deriving DecidableEq, Repr

/-- Modelled from the spec: the federation engine's observable state — the
set of processed activity ids (the `ProcessingRecord` store) together with
the domain-object state the Side-Effect Applier mutates. -/
structure FedState (α : Type) where
  processed : List String
  objects : α

/-- Modelled from the spec: the Deduplication Store's atomic check-and-insert
`mark_if_new(activity_id) -> Inserted | AlreadyPresent`. -/
def mark_if_new {α : Type} (s : FedState α) (activity_id : String) :
    MarkResult × FedState α :=
  if activity_id ∈ s.processed then (.AlreadyPresent, s)
  else (.Inserted, { s with processed := activity_id :: s.processed })

/-- Modelled from the spec: the Inbox Processor's application step for an
authenticated inbound activity — call the Deduplication Store first; on
`AlreadyPresent` short-circuit with success and no side effects; on
`Inserted` apply the activity's side effect to the domain objects. -/
def ingest {α : Type} (applyActivity : α → α) (activity_id : String)
    (s : FedState α) : FedState α :=
  match mark_if_new s activity_id with
  | (.AlreadyPresent, s1) => s1
  | (.Inserted, s1) => { s1 with objects := applyActivity s1.objects }

/-! ## Helper lemmas -/

theorem markMentionRead_frame (env : CreateCommentEnv) (pid cid : Nat) (db : DB)
    (res : Except String Unit) (db5 : DB)
    (h : markMentionRead env pid cid db = (res, db5)) :
    db5.comments = db.comments ∧ db5.trace = db.trace := by
  unfold markMentionRead at h
  repeat' split at h
  all_goals
    rw [Prod.mk.injEq] at h
    obtain ⟨h1, h2⟩ := h
    subst h2
    simp

theorem markParentRead_frame (env : CreateCommentEnv) (pid cid : Nat) (db : DB)
    (res : Except String Unit) (db5 : DB)
    (h : markParentRead env pid cid db = (res, db5)) :
    db5.comments = db.comments ∧ db5.trace = db.trace := by
  unfold markParentRead at h
  repeat' split at h
  · exact markMentionRead_frame _ _ _ _ _ _ h
  · have h2 := markMentionRead_frame _ _ _ _ _ _ h
    simpa using h2
  · rw [Prod.mk.injEq] at h
    obtain ⟨h1, h2⟩ := h
    subst h2
    simp

theorem communityUpdate_frame (db : DB) (cid : Nat) (d : Bool)
    (res : Option Community) (db1 : DB)
    (h : Community.update db cid { deleted := some d } = (res, db1)) :
    (db1.communities = db.communities ∨
      db1.communities = db.communities.map
        (fun c => if c.id = cid then { c with deleted := d } else c)) ∧
    db1.comments = db.comments ∧ db1.likes = db.likes ∧
    db1.commentReplies = db.commentReplies ∧ db1.personMentions = db.personMentions ∧
    db1.privateMessages = db.privateMessages ∧
    db1.privateMessageReports = db.privateMessageReports := by
  unfold Community.update at h
  split at h
  all_goals
    rw [Prod.mk.injEq] at h
    obtain ⟨h1, h2⟩ := h
    subst h2
    simp [applyCommunityUpdateForm]

theorem finishComment_comments (env : CreateCommentEnv) (pid cid : Nat)
    (fid : Option String) (rids : List Nat) (popt : Option Comment) (db : DB) :
    (finishComment env pid cid fid rids popt db).2.comments = db.comments := by
  unfold finishComment
  rcases popt with _ | parent
  · rfl
  · rcases hmp : markParentRead env pid parent.id db with ⟨res, db5⟩
    obtain ⟨hc, ht⟩ := markParentRead_frame _ _ _ _ _ _ hmp
    rcases res with e | u <;> simp [hmp, hc]

theorem finishComment_trace (env : CreateCommentEnv) (pid cid : Nat)
    (fid : Option String) (rids : List Nat) (popt : Option Comment) (db : DB) :
    (finishComment env pid cid fid rids popt db).2.trace = db.trace := by
  unfold finishComment
  rcases popt with _ | parent
  · rfl
  · rcases hmp : markParentRead env pid parent.id db with ⟨res, db5⟩
    obtain ⟨hc, ht⟩ := markParentRead_frame _ _ _ _ _ _ hmp
    rcases res with e | u <;> simp [hmp, ht]

theorem finishComment_ws_fail (env : CreateCommentEnv) (pid cid : Nat)
    (fid : Option String) (rids : List Nat) (popt : Option Comment) (db : DB)
    (hws : env.wsOk = false) :
    ∀ r, (finishComment env pid cid fid rids popt db).1 ≠ Except.ok r := by
  intro r
  unfold finishComment send_comment_ws_message
  rcases popt with _ | parent
  · simp [hws]
  · rcases hmp : markParentRead env pid parent.id db with ⟨res, db5⟩
    rcases res with e | u <;> simp [hmp, hws]

theorem communityUpdate_none (db : DB) (cid : Nat) (f : CommunityUpdateForm)
    (db1 : DB) (h : Community.update db cid f = (none, db1)) : db1 = db := by
  unfold Community.update at h
  split at h
  · rw [Prod.mk.injEq] at h
    exact h.2.symm ▸ rfl
  · rw [Prod.mk.injEq] at h
    exact absurd h.1 (by simp)

theorem communityUpdate_some (db : DB) (cid : Nat) (d : Bool) (u : Community)
    (db1 : DB) (h : Community.update db cid { deleted := some d } = (some u, db1)) :
    db1.trace = db.trace ++ [Event.communityUpdate cid] ∧
    ∃ c, c ∈ db1.communities ∧ c.id = cid ∧ c.deleted = d := by
  unfold Community.update at h
  rcases hf : List.find? (fun c => c.id == cid) db.communities with _ | c0
  all_goals rw [hf] at h
  · rw [Prod.mk.injEq] at h
    exact absurd h.1 (by simp)
  · rw [Prod.mk.injEq] at h
    obtain ⟨h1, h2⟩ := h
    subst h2
    have hc0 : c0.id = cid := by simpa using List.find?_some hf
    refine ⟨by simp, ?_⟩
    have hm := List.mem_map_of_mem
      (f := fun x => if x.id = cid then applyCommunityUpdateForm x { deleted := some d } else x)
      (List.mem_of_find?_eq_some hf)
    refine ⟨_, by simpa using hm, ?_, ?_⟩
    · simp [hc0, applyCommunityUpdateForm]
    · simp [hc0, applyCommunityUpdateForm]

/-! ## Concrete sample inputs, used by witnesses and counterexamples -/

/-- A fully successful environment for `CreateComment.perform`. -/
def sampleCreateEnv : CreateCommentEnv :=
  { auth := .ok { id := 1 }
    localSiteOk := true
    removeSlurs := fun s => s
    post := .ok { id := 10, community_id := 20, locked := false, deleted := false,
                  removed := false, language_id := 3 }
    banOk := true
    communityOk := true
    parentRead := .error "couldnt_find_comment"
    languageAllowed := true
    createOk := true
    protocolAndHostname := "https://example.com"
    updateOk := true
    mentionsOf := fun _ => []
    notifs := .ok []
    likeOk := true
    apubSendOk := true
    replyUpdateOk := true
    mentionUpdateOk := true
    wsOk := true }

def sampleCreateData : CreateComment :=
  { content := "hello", post_id := 10, parent_id := none, language_id := none,
    form_id := none, auth := "jwt" }

def sampleDb : DB := {}

/-- A request carrying a `parent_id` whose parent read fails (see
`sampleCreateEnv`), so the comment is created top-level. -/
def sampleParentData : CreateComment :=
  { content := "hello", post_id := 10, parent_id := some 7, language_id := none,
    form_id := none, auth := "jwt" }

def sampleDeleteEnv : DeleteCommunityEnv :=
  { auth := .ok { id := 1 }
    mods := .ok [{ community_id := 20, moderator := { id := 1 } }]
    updateOk := true
    wsOk := true
    sendOk := true }

def sampleDeleteData : DeleteCommunity :=
  { community_id := 20, deleted := true, auth := "jwt" }

def sampleCommunity : Community :=
  { id := 20, name := "main", title := "Main", description := none,
    removed := false, deleted := false, nsfw := false, hidden := false }

def sampleDeleteDb : DB := { communities := [sampleCommunity] }

def samplePMEnv : PMReportEnv :=
  { auth := .ok { id := 1 }
    localSiteOk := true
    reasonValid := fun _ => true
    reportOk := true
    viewOk := true
    chatDeliveryOk := true }

def samplePMData : CreatePrivateMessageReport :=
  { private_message_id := 5, reason := "  bad stuff  ", auth := "jwt" }

def samplePM : PrivateMessage := { id := 5, creator_id := 2, content := "hello pm" }

def samplePMDb : DB := { privateMessages := [samplePM] }

def samplePMReport : PrivateMessageReport :=
  { id := 1, creator_id := 1, private_message_id := 5,
    original_pm_text := "hello pm", reason := samplePMData.reason.trim }

/-- The database state after the sample report run. -/
def samplePMDbAfter : DB :=
  { samplePMDb with
    privateMessageReports := [samplePMReport]
    nextReportId := 2 }

/-! ## Claim theorems -/

theorem commentLike_comments (db : DB) (f : CommentLikeForm) :
    (CommentLike.like db f).comments = db.comments := rfl

theorem commentLike_trace (db : DB) (f : CommentLikeForm) :
    (CommentLike.like db f).trace = db.trace ++ [Event.likeInsert f.comment_id] := rfl

theorem commentUpdate_after_create_not_none (db : DB) (form : CommentInsertForm)
    (pp : Option (List Nat)) (f : CommentUpdateForm) (db2 : DB) :
    Comment.update (Comment.create db form pp).2 (Comment.create db form pp).1.id f ≠
      (none, db2) := by
  intro h
  unfold Comment.update at h
  rcases hf : List.find? (fun c => c.id == (Comment.create db form pp).1.id)
      (Comment.create db form pp).2.comments with _ | c0
  · have hmem : (Comment.create db form pp).1 ∈ (Comment.create db form pp).2.comments := by
      simp [Comment.create]
    have hcontra := List.find?_eq_none.mp hf (Comment.create db form pp).1 hmem
    simp at hcontra
  · rw [hf] at h
    simp at h

theorem commentUpdate_after_create_facts (db : DB) (form : CommentInsertForm)
    (pp : Option (List Nat)) (apub : String) (u : Comment) (db2 : DB)
    (h : Comment.update (Comment.create db form pp).2 (Comment.create db form pp).1.id
      { content := none, deleted := none, ap_id := some apub } = (some u, db2)) :
    db2.trace = db.trace ++ [Event.commentInsert db.nextCommentId,
      Event.commentUpdate db.nextCommentId] ∧
    ∃ c, c ∈ db2.comments ∧ c.id = db.nextCommentId ∧ c.post_id = form.post_id ∧
      c.ap_id = apub ∧ c.path = (pp.getD []) ++ [db.nextCommentId] := by
  unfold Comment.update at h
  rcases hf : List.find? (fun c => c.id == (Comment.create db form pp).1.id)
      (Comment.create db form pp).2.comments with _ | c0
  · have hmem : (Comment.create db form pp).1 ∈ (Comment.create db form pp).2.comments := by
      simp [Comment.create]
    have hcontra := List.find?_eq_none.mp hf (Comment.create db form pp).1 hmem
    simp at hcontra
  · rw [hf] at h
    rw [Prod.mk.injEq] at h
    obtain ⟨h1, h2⟩ := h
    subst h2
    constructor
    · simp [Comment.create]
    · have hm := List.mem_map_of_mem
        (f := fun x => if x.id = (Comment.create db form pp).1.id then
          applyCommentUpdateForm x { content := none, deleted := none, ap_id := some apub }
          else x)
        (show (Comment.create db form pp).1 ∈ (Comment.create db form pp).2.comments by
          simp [Comment.create])
      refine ⟨applyCommentUpdateForm (Comment.create db form pp).1
        { content := none, deleted := none, ap_id := some apub }, ?_, ?_, ?_, ?_, ?_⟩
      · simpa using hm
      · simp [applyCommentUpdateForm, Comment.create]
      · simp [applyCommentUpdateForm, Comment.create]
      · simp [applyCommentUpdateForm]
      · simp [applyCommentUpdateForm, Comment.create]

theorem createComment_shape (env : CreateCommentEnv) (data : CreateComment) (db : DB) :
    ((CreateComment.perform env data db).2 = db ∧
      (∃ e, (CreateComment.perform env data db).1 = Except.error e)) ∨
    ((CreateComment.perform env data db).2.trace =
        db.trace ++ [Event.commentInsert db.nextCommentId] ∧
      (∃ e, (CreateComment.perform env data db).1 = Except.error e)) ∨
    ((CreateComment.perform env data db).2.trace =
        db.trace ++ [Event.commentInsert db.nextCommentId, Event.commentUpdate db.nextCommentId] ∧
      (∃ e, (CreateComment.perform env data db).1 = Except.error e)) ∨
    ((CreateComment.perform env data db).2.trace =
        db.trace ++ [Event.commentInsert db.nextCommentId, Event.commentUpdate db.nextCommentId,
          Event.likeInsert db.nextCommentId, Event.apubDispatch] ∧
      (∃ c, c ∈ (CreateComment.perform env data db).2.comments ∧
        c.id = db.nextCommentId ∧ c.post_id = data.post_id ∧
        c.ap_id = generate_local_apub_endpoint EndpointType.Comment
          (toString db.nextCommentId) env.protocolAndHostname ∧
        (((match data.parent_id with
            | some _ => env.parentRead.toOption
            | none => none) : Option Comment) = none → c.path = [db.nextCommentId])) ∧
      (env.apubSendOk = false →
        (CreateComment.perform env data db).1 = Except.error "federation_send_failed") ∧
      (env.wsOk = false → ∀ r, (CreateComment.perform env data db).1 ≠ Except.ok r) ∧
      (∃ rids, env.notifs = Except.ok rids)) := by
  generalize hrun : CreateComment.perform env data db = p
  unfold CreateComment.perform at hrun
  rcases hauth : env.auth with e | person
  · simp only [hauth] at hrun
    subst hrun; simp
  · simp only [hauth] at hrun
    by_cases hls : env.localSiteOk = false
    · rw [if_pos hls] at hrun
      subst hrun; simp
    · rw [if_neg hls] at hrun
      rcases hpost : env.post with e | post
      · simp only [hpost] at hrun
        subst hrun; simp
      · simp only [hpost] at hrun
        by_cases hban : env.banOk = false
        · rw [if_pos hban] at hrun
          subst hrun; simp
        · rw [if_neg hban] at hrun
          by_cases hcomm : env.communityOk = false
          · rw [if_pos hcomm] at hrun
            subst hrun; simp
          · rw [if_neg hcomm] at hrun
            rcases hcp : check_post_deleted_or_removed post with e | uu
            · simp only [hcp] at hrun
              subst hrun; simp
            · simp only [hcp] at hrun
              by_cases hlock : post.locked = true
              · rw [if_pos hlock] at hrun
                subst hrun; simp
              · rw [if_neg hlock] at hrun
                rcases hpid : data.parent_id with _ | pid
                · simp only [hpid] at hrun
                  rw [if_neg Bool.false_ne_true] at hrun
                  by_cases hlang : env.languageAllowed = false
                  · rw [if_pos hlang] at hrun
                    subst hrun; simp
                  · rw [if_neg hlang] at hrun
                    by_cases hcreate : env.createOk = false
                    · rw [if_pos hcreate] at hrun
                      subst hrun; simp
                    · rw [if_neg hcreate] at hrun
                      by_cases hupd : env.updateOk = false
                      · rw [if_pos hupd] at hrun
                        subst hrun; simp [Comment.create]
                      · rw [if_neg hupd] at hrun
                        split at hrun
                        next db2 hequ =>
                          exact absurd hequ (commentUpdate_after_create_not_none _ _ _ _ _)
                        next updated db2 hequ =>
                        obtain ⟨htr2, hex⟩ := commentUpdate_after_create_facts _ _ _ _ _ _ hequ
                        rcases hN : env.notifs with e | rids
                        · simp only [hN] at hrun
                          subst hrun; simp [htr2]
                        · simp only [hN] at hrun
                          by_cases hlike : env.likeOk = false
                          · rw [if_pos hlike] at hrun
                            subst hrun; simp [htr2]
                          · rw [if_neg hlike] at hrun
                            by_cases hsend : env.apubSendOk = false
                            · rw [if_pos hsend] at hrun
                              subst hrun
                              refine Or.inr (Or.inr (Or.inr ⟨?_, ?_, ?_, ?_, rids, rfl⟩))
                              · simp [commentLike_trace, htr2, Comment.create, List.append_assoc]
                              · obtain ⟨c, hc1, hc2, hc3, hc4, hc5⟩ := hex
                                refine ⟨c, ?_, hc2, hc3, ?_, ?_⟩
                                · simp [commentLike_comments, hc1]
                                · rw [hc4]; simp [Comment.create]
                                · intro hco; rw [hc5]; simp
                              · intro _; rfl
                              · intro _ r hco2; simp at hco2
                            · rw [if_neg hsend] at hrun
                              subst hrun
                              refine Or.inr (Or.inr (Or.inr ⟨?_, ?_, ?_, ?_, rids, rfl⟩))
                              · simp [finishComment_trace, commentLike_trace, htr2, Comment.create,
                                  List.append_assoc]
                              · obtain ⟨c, hc1, hc2, hc3, hc4, hc5⟩ := hex
                                refine ⟨c, ?_, hc2, hc3, ?_, ?_⟩
                                · simp [finishComment_comments, commentLike_comments, hc1]
                                · rw [hc4]; simp [Comment.create]
                                · intro hco; rw [hc5]; simp
                              · intro hco2; exact absurd hco2 hsend
                              · intro hws r; exact finishComment_ws_fail _ _ _ _ _ _ _ hws r
                · simp only [hpid] at hrun
                  rcases hpr : env.parentRead with e | parent
                  · simp only [hpr, Except.toOption] at hrun
                    rw [if_neg Bool.false_ne_true] at hrun
                    by_cases hlang : env.languageAllowed = false
                    · rw [if_pos hlang] at hrun
                      subst hrun; simp
                    · rw [if_neg hlang] at hrun
                      by_cases hcreate : env.createOk = false
                      · rw [if_pos hcreate] at hrun
                        subst hrun; simp
                      · rw [if_neg hcreate] at hrun
                        by_cases hupd : env.updateOk = false
                        · rw [if_pos hupd] at hrun
                          subst hrun; simp [Comment.create]
                        · rw [if_neg hupd] at hrun
                          split at hrun
                          next db2 hequ =>
                            exact absurd hequ (commentUpdate_after_create_not_none _ _ _ _ _)
                          next updated db2 hequ =>
                          obtain ⟨htr2, hex⟩ := commentUpdate_after_create_facts _ _ _ _ _ _ hequ
                          rcases hN : env.notifs with e | rids
                          · simp only [hN] at hrun
                            subst hrun; simp [htr2]
                          · simp only [hN] at hrun
                            by_cases hlike : env.likeOk = false
                            · rw [if_pos hlike] at hrun
                              subst hrun; simp [htr2]
                            · rw [if_neg hlike] at hrun
                              by_cases hsend : env.apubSendOk = false
                              · rw [if_pos hsend] at hrun
                                subst hrun
                                refine Or.inr (Or.inr (Or.inr ⟨?_, ?_, ?_, ?_, rids, rfl⟩))
                                · simp [commentLike_trace, htr2, Comment.create, List.append_assoc]
                                · obtain ⟨c, hc1, hc2, hc3, hc4, hc5⟩ := hex
                                  refine ⟨c, ?_, hc2, hc3, ?_, ?_⟩
                                  · simp [commentLike_comments, hc1]
                                  · rw [hc4]; simp [Comment.create]
                                  · intro hco; rw [hc5]; simp
                                · intro _; rfl
                                · intro _ r hco2; simp at hco2
                              · rw [if_neg hsend] at hrun
                                subst hrun
                                refine Or.inr (Or.inr (Or.inr ⟨?_, ?_, ?_, ?_, rids, rfl⟩))
                                · simp [finishComment_trace, commentLike_trace, htr2, Comment.create,
                                    List.append_assoc]
                                · obtain ⟨c, hc1, hc2, hc3, hc4, hc5⟩ := hex
                                  refine ⟨c, ?_, hc2, hc3, ?_, ?_⟩
                                  · simp [finishComment_comments, commentLike_comments, hc1]
                                  · rw [hc4]; simp [Comment.create]
                                  · intro hco; rw [hc5]; simp
                                · intro hco2; exact absurd hco2 hsend
                                · intro hws r; exact finishComment_ws_fail _ _ _ _ _ _ _ hws r
                  · simp only [hpr, Except.toOption] at hrun
                    by_cases hbne : (parent.post_id != data.post_id) = true
                    · rw [if_pos hbne] at hrun
                      subst hrun; simp
                    · rw [if_neg hbne] at hrun
                      by_cases hlang : env.languageAllowed = false
                      · rw [if_pos hlang] at hrun
                        subst hrun; simp
                      · rw [if_neg hlang] at hrun
                        by_cases hcreate : env.createOk = false
                        · rw [if_pos hcreate] at hrun
                          subst hrun; simp
                        · rw [if_neg hcreate] at hrun
                          by_cases hupd : env.updateOk = false
                          · rw [if_pos hupd] at hrun
                            subst hrun; simp [Comment.create]
                          · rw [if_neg hupd] at hrun
                            split at hrun
                            next db2 hequ =>
                              exact absurd hequ (commentUpdate_after_create_not_none _ _ _ _ _)
                            next updated db2 hequ =>
                            obtain ⟨htr2, hex⟩ := commentUpdate_after_create_facts _ _ _ _ _ _ hequ
                            rcases hN : env.notifs with e | rids
                            · simp only [hN] at hrun
                              subst hrun; simp [htr2]
                            · simp only [hN] at hrun
                              by_cases hlike : env.likeOk = false
                              · rw [if_pos hlike] at hrun
                                subst hrun; simp [htr2]
                              · rw [if_neg hlike] at hrun
                                by_cases hsend : env.apubSendOk = false
                                · rw [if_pos hsend] at hrun
                                  subst hrun
                                  refine Or.inr (Or.inr (Or.inr ⟨?_, ?_, ?_, ?_, rids, rfl⟩))
                                  · simp [commentLike_trace, htr2, Comment.create, List.append_assoc]
                                  · obtain ⟨c, hc1, hc2, hc3, hc4, hc5⟩ := hex
                                    refine ⟨c, ?_, hc2, hc3, ?_, ?_⟩
                                    · simp [commentLike_comments, hc1]
                                    · rw [hc4]; simp [Comment.create]
                                    · intro hco; simp [Except.toOption] at hco
                                  · intro _; rfl
                                  · intro _ r hco2; simp at hco2
                                · rw [if_neg hsend] at hrun
                                  subst hrun
                                  refine Or.inr (Or.inr (Or.inr ⟨?_, ?_, ?_, ?_, rids, rfl⟩))
                                  · simp [finishComment_trace, commentLike_trace, htr2, Comment.create,
                                      List.append_assoc]
                                  · obtain ⟨c, hc1, hc2, hc3, hc4, hc5⟩ := hex
                                    refine ⟨c, ?_, hc2, hc3, ?_, ?_⟩
                                    · simp [finishComment_comments, commentLike_comments, hc1]
                                    · rw [hc4]; simp [Comment.create]
                                    · intro hco; simp [Except.toOption] at hco
                                  · intro hco2; exact absurd hco2 hsend
                                  · intro hws r; exact finishComment_ws_fail _ _ _ _ _ _ _ hws r

theorem deleteCommunity_shape (env : DeleteCommunityEnv) (data : DeleteCommunity) (db : DB) :
    ((DeleteCommunity.perform env data db).2 = db ∧
      (∀ r, (DeleteCommunity.perform env data db).1 ≠ DResult.ok r)) ∨
    ((DeleteCommunity.perform env data db).2.trace =
        db.trace ++ [Event.communityUpdate data.community_id] ∧
      (∀ r, (DeleteCommunity.perform env data db).1 ≠ DResult.ok r) ∧
      ∃ c, c ∈ (DeleteCommunity.perform env data db).2.communities ∧
        c.id = data.community_id ∧ c.deleted = data.deleted) ∨
    ((DeleteCommunity.perform env data db).2.trace =
        db.trace ++ [Event.communityUpdate data.community_id, Event.apubDeleteDispatch] ∧
      (env.sendOk = false → ∀ r, (DeleteCommunity.perform env data db).1 ≠ DResult.ok r) ∧
      ∃ c, c ∈ (DeleteCommunity.perform env data db).2.communities ∧
        c.id = data.community_id ∧ c.deleted = data.deleted) := by
  generalize hrun : DeleteCommunity.perform env data db = p
  unfold DeleteCommunity.perform at hrun
  rcases hauth : env.auth with e | person
  · simp only [hauth] at hrun
    subst hrun; simp
  · simp only [hauth] at hrun
    rcases hmods : env.mods with e | mods
    · simp only [hmods] at hrun
      subst hrun; simp
    · simp only [hmods] at hrun
      rcases mods with _ | ⟨m0, rest⟩
      · simp only at hrun
        subst hrun; simp
      · simp only at hrun
        by_cases hid : (person.id != m0.moderator.id) = true
        · rw [if_pos hid] at hrun
          subst hrun; simp
        · rw [if_neg hid] at hrun
          by_cases hupd : env.updateOk = false
          · rw [if_pos hupd] at hrun
            subst hrun; simp
          · rw [if_neg hupd] at hrun
            split at hrun
            next db1 hequ =>
              obtain hdb := communityUpdate_none _ _ _ _ hequ
              subst hdb
              subst hrun; simp
            next u db1 hequ =>
            obtain ⟨htr1, hex⟩ := communityUpdate_some _ _ _ _ _ hequ
            by_cases hws : env.wsOk = false
            · rw [if_pos hws] at hrun
              subst hrun
              refine Or.inr (Or.inl ⟨by simp [htr1], by simp, ?_⟩)
              simpa using hex
            · rw [if_neg hws] at hrun
              by_cases hsend : env.sendOk = false
              · rw [if_pos hsend] at hrun
                subst hrun
                refine Or.inr (Or.inr ⟨?_, ?_, ?_⟩)
                · simp [htr1, List.append_assoc]
                · intro _ r hco; simp at hco
                · simpa using hex
              · rw [if_neg hsend] at hrun
                subst hrun
                refine Or.inr (Or.inr ⟨?_, ?_, ?_⟩)
                · simp [htr1, List.append_assoc]
                · intro hco; exact absurd hco hsend
                · simpa using hex

/-- C5 counterexample: with every other collaborator succeeding, flipping
only the outcome of the local-notification step `send_local_notifs` to
failure makes `CreateComment::perform` fail — the `?` on `send_local_notifs`
propagates it, refuting the claim that notification-fanout failures never
fail the triggering operation. -/
theorem createComment_notif_failure_surfaces :
    (CreateComment.perform sampleCreateEnv sampleCreateData sampleDb).1 =
      Except.ok { comment_id := 1, recipient_ids := [], form_id := none } ∧
    (CreateComment.perform { sampleCreateEnv with notifs := Except.error "couldnt_get_comments" }
        sampleCreateData sampleDb).1 = Except.error "couldnt_get_comments" := by
  constructor <;> rfl

/-- C5 amended: the fanout contract differs per operation. For
`CreatePrivateMessageReport::perform` the chat-server `do_send` is
fire-and-forget: its delivery outcome can never change the call's result or
state. For `CreateComment::perform`, however, a failure of
`send_local_notifs` or of `send_comment_ws_message` propagates: the call
cannot return success (though the created comment stays in place). -/
theorem notification_fanout_effects :
    ∀ (envP : PMReportEnv) (dataP : CreatePrivateMessageReport) (dbP : DB) (b : Bool)
      (env : CreateCommentEnv) (data : CreateComment) (db : DB),
      (CreatePrivateMessageReport.perform { envP with chatDeliveryOk := b } dataP dbP =
        CreatePrivateMessageReport.perform envP dataP dbP) ∧
      (∀ e, env.notifs = Except.error e →
        ∀ r, (CreateComment.perform env data db).1 ≠ Except.ok r) ∧
      (env.wsOk = false → ∀ r, (CreateComment.perform env data db).1 ≠ Except.ok r) := by
  intro envP dataP dbP b env data db
  refine ⟨rfl, ?_, ?_⟩
  · intro e hN r hok
    rcases createComment_shape env data db with h | h | h | h
    · obtain ⟨-, e2, he⟩ := h
      rw [hok] at he; simp at he
    · obtain ⟨-, e2, he⟩ := h
      rw [hok] at he; simp at he
    · obtain ⟨-, e2, he⟩ := h
      rw [hok] at he; simp at he
    · obtain ⟨-, -, -, -, rids, hr⟩ := h
      rw [hN] at hr; simp at hr
  · intro hws r hok
    rcases createComment_shape env data db with h | h | h | h
    · obtain ⟨-, e2, he⟩ := h
      rw [hok] at he; simp at he
    · obtain ⟨-, e2, he⟩ := h
      rw [hok] at he; simp at he
    · obtain ⟨-, e2, he⟩ := h
      rw [hok] at he; simp at he
    · exact h.2.2.2.1 hws r hok

theorem notification_fanout_effects_witness :
    (CreatePrivateMessageReport.perform { samplePMEnv with chatDeliveryOk := false }
        samplePMData samplePMDb =
      CreatePrivateMessageReport.perform samplePMEnv samplePMData samplePMDb) ∧
    ((CreateComment.perform { sampleCreateEnv with notifs := Except.error "x" }
        sampleCreateData sampleDb).1 ≠
      Except.ok { comment_id := 1, recipient_ids := [], form_id := none }) :=
  ⟨(notification_fanout_effects samplePMEnv samplePMData samplePMDb false
      { sampleCreateEnv with notifs := Except.error "x" } sampleCreateData sampleDb).1,
   (notification_fanout_effects samplePMEnv samplePMData samplePMDb false
      { sampleCreateEnv with notifs := Except.error "x" } sampleCreateData sampleDb).2.1
      "x" rfl _⟩

/-- C6: every successful `CreateComment::perform` stores on the created
comment an `ap_id` minted by `generate_local_apub_endpoint` from the local
instance's protocol-and-hostname and the freshly inserted comment's id, and
the `ap_id` update is committed before the Create activity is dispatched:
in the trace the comment-update event precedes the dispatch event. -/
theorem createComment_fresh_apub_id :
    ∀ (env : CreateCommentEnv) (data : CreateComment) (db : DB) (r : CommentResponse),
      db.trace = [] →
      (CreateComment.perform env data db).1 = Except.ok r →
      (∃ c, c ∈ (CreateComment.perform env data db).2.comments ∧
        c.id = db.nextCommentId ∧ c.post_id = data.post_id ∧
        c.ap_id = generate_local_apub_endpoint EndpointType.Comment
          (toString db.nextCommentId) env.protocolAndHostname) ∧
      List.Sublist [Event.commentUpdate db.nextCommentId, Event.apubDispatch]
        (CreateComment.perform env data db).2.trace := by
  intro env data db r ht hok
  rcases createComment_shape env data db with h | h | h | h
  · obtain ⟨-, e, he⟩ := h
    rw [hok] at he; simp at he
  · obtain ⟨-, e, he⟩ := h
    rw [hok] at he; simp at he
  · obtain ⟨-, e, he⟩ := h
    rw [hok] at he; simp at he
  · obtain ⟨htr, ⟨c, hc1, hc2, hc3, hc4, -⟩, -, -, -⟩ := h
    refine ⟨⟨c, hc1, hc2, hc3, hc4⟩, ?_⟩
    rw [htr, ht]
    simp only [List.nil_append]
    exact List.Sublist.cons _ (List.Sublist.cons₂ _ (List.Sublist.cons _
      (List.Sublist.cons₂ _ List.Sublist.slnil)))

theorem createComment_fresh_apub_id_witness :
    (∃ c, c ∈ (CreateComment.perform sampleCreateEnv sampleCreateData sampleDb).2.comments ∧
      c.id = 1 ∧ c.post_id = 10 ∧
      c.ap_id = generate_local_apub_endpoint EndpointType.Comment (toString 1)
        "https://example.com") ∧
    List.Sublist [Event.commentUpdate 1, Event.apubDispatch]
      (CreateComment.perform sampleCreateEnv sampleCreateData sampleDb).2.trace :=
  createComment_fresh_apub_id sampleCreateEnv sampleCreateData sampleDb
    { comment_id := 1, recipient_ids := [], form_id := none } rfl rfl

/-- C9: when a `CreateComment` request carries a `parent_id`, two different
failure modes of the parent read are handled differently. If the parent
comment is read successfully but lives in a different post than the
request's `post_id`, the call fails with `couldnt_create_comment` and the
state is unchanged. If the parent read itself fails, the error is swallowed
(`.ok()`), and a successful run creates the comment as a top-level comment
of the post (its path has no ancestors). -/
theorem createComment_parent_checks :
    ∀ (env : CreateCommentEnv) (data : CreateComment) (db : DB) (pid : Nat),
      data.parent_id = some pid →
      (∀ person post parent,
        env.auth = Except.ok person → env.localSiteOk = true →
        env.post = Except.ok post → env.banOk = true → env.communityOk = true →
        post.deleted = false → post.removed = false → post.locked = false →
        env.parentRead = Except.ok parent → parent.post_id ≠ data.post_id →
        CreateComment.perform env data db =
          (Except.error "couldnt_create_comment", db)) ∧
      (∀ e r, env.parentRead = Except.error e →
        (CreateComment.perform env data db).1 = Except.ok r →
        ∃ c, c ∈ (CreateComment.perform env data db).2.comments ∧
          c.id = db.nextCommentId ∧ c.post_id = data.post_id ∧
          c.path = [db.nextCommentId]) := by
  intro env data db pid hpid
  constructor
  · intro person post parent hauth hls hpost hban hcomm hdel hrem hlock hpr hne
    unfold CreateComment.perform
    simp [hauth, hls, hpost, hban, hcomm, check_post_deleted_or_removed, hdel,
      hrem, hlock, hpid, hpr, Except.toOption, hne]
  · intro e r hpr hok
    rcases createComment_shape env data db with h | h | h | h
    · obtain ⟨-, e2, he⟩ := h
      rw [hok] at he; simp at he
    · obtain ⟨-, e2, he⟩ := h
      rw [hok] at he; simp at he
    · obtain ⟨-, e2, he⟩ := h
      rw [hok] at he; simp at he
    · obtain ⟨-, ⟨c, hc1, hc2, hc3, -, hc5⟩, -, -, -⟩ := h
      exact ⟨c, hc1, hc2, hc3, hc5 (by simp [hpid, hpr, Except.toOption])⟩

theorem createComment_parent_checks_witness :
    ∃ c, c ∈ (CreateComment.perform sampleCreateEnv sampleParentData sampleDb).2.comments ∧
      c.id = 1 ∧ c.post_id = 10 ∧ c.path = [1] :=
  (createComment_parent_checks sampleCreateEnv sampleParentData sampleDb 7 rfl).2
    "couldnt_find_comment" { comment_id := 1, recipient_ids := [], form_id := none }
    rfl rfl

/-- C10: a successfully created private-message report stores the request's
reason with surrounding whitespace trimmed, and stores as
`original_pm_text` a snapshot of the reported private message's content as
read at report time — and since later edits of the message never touch the
report table, the snapshot is insulated from them. -/
theorem pmReport_snapshot :
    ∀ (env : PMReportEnv) (data : CreatePrivateMessageReport) (db : DB)
      (r : PrivateMessageReportResponse) (db1 : DB),
      CreatePrivateMessageReport.perform env data db = (Except.ok r, db1) →
      ∃ pm, pm ∈ db.privateMessages ∧ pm.id = data.private_message_id ∧
        ∃ rep, rep ∈ db1.privateMessageReports ∧
          rep.reason = data.reason.trim ∧
          rep.original_pm_text = pm.content ∧
          ∀ s, (PrivateMessage.updateContent db1 data.private_message_id
            s).privateMessageReports = db1.privateMessageReports := by
  intro env data db r db1 h
  rcases hf : db.privateMessages.find? (fun pm => pm.id == data.private_message_id)
    with _ | pm
  all_goals unfold CreatePrivateMessageReport.perform PrivateMessageReport.report at h
  all_goals simp only [hf] at h
  · repeat' split at h
    all_goals rw [Prod.mk.injEq] at h
    all_goals obtain ⟨h1, h2⟩ := h
    all_goals cases h1
  · repeat' split at h
    all_goals rw [Prod.mk.injEq] at h
    all_goals obtain ⟨h1, h2⟩ := h
    all_goals try (cases h1)
    subst h2
    refine ⟨pm, List.mem_of_find?_eq_some hf, ?_, ?_⟩
    · simpa using List.find?_some hf
    · exact ⟨_, List.mem_append_right _ (List.mem_singleton.mpr rfl), rfl, rfl,
        fun s => rfl⟩

theorem pmReport_snapshot_witness :
    ∃ pm, pm ∈ samplePMDb.privateMessages ∧ pm.id = 5 ∧
      ∃ rep, rep ∈ samplePMDbAfter.privateMessageReports ∧
        rep.reason = ("  bad stuff  " : String).trim ∧
        rep.original_pm_text = pm.content ∧
        ∀ s, (PrivateMessage.updateContent samplePMDbAfter 5 s).privateMessageReports =
          samplePMDbAfter.privateMessageReports :=
  pmReport_snapshot samplePMEnv samplePMData samplePMDb
    { report := samplePMReport } samplePMDbAfter (by rfl)

/-- C4: applying the same inbound activity with a given id twice produces the
same state as applying it once — the deduplication store's check-and-insert
makes the second application an `AlreadyPresent` no-op. -/
theorem ingest_idempotent :
    ∀ (α : Type) (applyActivity : α → α) (activity_id : String) (s : FedState α),
      ingest applyActivity activity_id (ingest applyActivity activity_id s) =
        ingest applyActivity activity_id s := by
  intro α f aid s
  unfold ingest mark_if_new
  by_cases h : aid ∈ s.processed <;> simp [h]

/-- C1 counterexample: with every collaborator succeeding,
`CreateComment::perform` succeeds; flipping only the outcome of
`CreateOrUpdateNote::send` to failure makes the very same call return an
error to the end user — the `?` on the send propagates it, refuting the
claim that the API result is independent of the outbound send. -/
theorem createComment_send_failure_surfaces :
    (CreateComment.perform sampleCreateEnv sampleCreateData sampleDb).1 =
      Except.ok { comment_id := 1, recipient_ids := [], form_id := none } ∧
    (CreateComment.perform { sampleCreateEnv with apubSendOk := false }
        sampleCreateData sampleDb).1 = Except.error "federation_send_failed" := by
  constructor <;> rfl

/-- C1 amended: a failure of the outbound activity send is not swallowed —
when `CreateOrUpdateNote::send` (resp. `send_apub_delete_in_community`)
fails, `CreateComment::perform` (resp. `DeleteCommunity::perform`) cannot
return success: the send error (or an earlier one) is returned to the
caller. -/
theorem apub_send_failure_propagates :
    ∀ (env : CreateCommentEnv) (data : CreateComment) (db : DB)
      (env2 : DeleteCommunityEnv) (data2 : DeleteCommunity) (db2 : DB),
      (env.apubSendOk = false →
        ∀ r, (CreateComment.perform env data db).1 ≠ Except.ok r) ∧
      (env2.sendOk = false →
        ∀ r2, (DeleteCommunity.perform env2 data2 db2).1 ≠ DResult.ok r2) := by
  intro env data db env2 data2 db2
  constructor
  · intro hsend r hok
    rcases createComment_shape env data db with h | h | h | h
    · obtain ⟨-, e, he⟩ := h
      rw [hok] at he; simp at he
    · obtain ⟨-, e, he⟩ := h
      rw [hok] at he; simp at he
    · obtain ⟨-, e, he⟩ := h
      rw [hok] at he; simp at he
    · obtain ⟨-, -, hs, -, -⟩ := h
      have he := hs hsend
      rw [hok] at he; simp at he
  · intro hsend r2 hok2
    rcases deleteCommunity_shape env2 data2 db2 with h | h | h
    · exact h.2 r2 hok2
    · exact h.2.1 r2 hok2
    · exact h.2.1 hsend r2 hok2

theorem apub_send_failure_propagates_witness :
    ((CreateComment.perform { sampleCreateEnv with apubSendOk := false }
        sampleCreateData sampleDb).1 ≠
      Except.ok { comment_id := 1, recipient_ids := [], form_id := none }) ∧
    ((DeleteCommunity.perform { sampleDeleteEnv with sendOk := false }
        sampleDeleteData sampleDeleteDb).1 ≠ DResult.ok { community_id := 20 }) :=
  ⟨(apub_send_failure_propagates { sampleCreateEnv with apubSendOk := false }
      sampleCreateData sampleDb { sampleDeleteEnv with sendOk := false }
      sampleDeleteData sampleDeleteDb).1 rfl _,
   (apub_send_failure_propagates { sampleCreateEnv with apubSendOk := false }
      sampleCreateData sampleDb { sampleDeleteEnv with sendOk := false }
      sampleDeleteData sampleDeleteDb).2 rfl _⟩

/-- C2: whenever a run of `CreateComment::perform` (resp.
`DeleteCommunity::perform`) attempts the outbound federation dispatch, the
local database write was committed before it (the insert/update event
precedes the dispatch event in the trace), and the committed write is still
present in the final state — in particular a dispatch failure never rolls it
back. -/
theorem local_write_committed_before_dispatch :
    ∀ (env : CreateCommentEnv) (data : CreateComment) (db : DB)
      (env2 : DeleteCommunityEnv) (data2 : DeleteCommunity) (db2 : DB),
      db.trace = [] → db2.trace = [] →
      (Event.apubDispatch ∈ (CreateComment.perform env data db).2.trace →
        List.Sublist [Event.commentInsert db.nextCommentId, Event.apubDispatch]
          (CreateComment.perform env data db).2.trace ∧
        ∃ c, c ∈ (CreateComment.perform env data db).2.comments ∧
          c.id = db.nextCommentId) ∧
      (Event.apubDeleteDispatch ∈ (DeleteCommunity.perform env2 data2 db2).2.trace →
        List.Sublist [Event.communityUpdate data2.community_id, Event.apubDeleteDispatch]
          (DeleteCommunity.perform env2 data2 db2).2.trace ∧
        ∃ c, c ∈ (DeleteCommunity.perform env2 data2 db2).2.communities ∧
          c.id = data2.community_id ∧ c.deleted = data2.deleted) := by
  intro env data db env2 data2 db2 ht ht2
  constructor
  · intro hd
    rcases createComment_shape env data db with h | h | h | h
    · rw [h.1, ht] at hd; simp at hd
    · rw [h.1, ht] at hd; simp at hd
    · rw [h.1, ht] at hd; simp at hd
    · obtain ⟨htr, ⟨c, hc1, hc2, -⟩, -, -, -⟩ := h
      constructor
      · rw [htr, ht]
        simp only [List.nil_append]
        exact List.Sublist.cons₂ _ (List.Sublist.cons _ (List.Sublist.cons _
          (List.Sublist.cons₂ _ List.Sublist.slnil)))
      · exact ⟨c, hc1, hc2⟩
  · intro hd
    rcases deleteCommunity_shape env2 data2 db2 with h | h | h
    · rw [h.1] at hd
      rw [ht2] at hd; simp at hd
    · rw [h.1, ht2] at hd; simp at hd
    · obtain ⟨htr, -, hex⟩ := h
      constructor
      · rw [htr, ht2]
        simp only [List.nil_append]
        exact List.Sublist.cons₂ _ (List.Sublist.cons₂ _ List.Sublist.slnil)
      · exact hex

theorem local_write_committed_before_dispatch_witness :
    (List.Sublist [Event.commentInsert 1, Event.apubDispatch]
      (CreateComment.perform { sampleCreateEnv with apubSendOk := false }
        sampleCreateData sampleDb).2.trace ∧
    ∃ c, c ∈ (CreateComment.perform { sampleCreateEnv with apubSendOk := false }
        sampleCreateData sampleDb).2.comments ∧ c.id = 1) :=
  (local_write_committed_before_dispatch { sampleCreateEnv with apubSendOk := false }
    sampleCreateData sampleDb sampleDeleteEnv sampleDeleteData sampleDeleteDb
    rfl rfl).1 (by decide)

/-- C3: all five validation gates of `CreateComment::perform` (community
ban, community deleted/removed, post deleted/removed, post locked, community
language allowlist) run before the comment row is inserted: if any of them
fails, the call returns an error and the storage state is completely
unchanged — no comment is created. -/
theorem createComment_gates_before_insert :
    ∀ (env : CreateCommentEnv) (data : CreateComment) (db : DB),
      (env.banOk = false ∨ env.communityOk = false ∨ env.languageAllowed = false ∨
        (∃ post, env.post = Except.ok post ∧
          (post.deleted = true ∨ post.removed = true ∨ post.locked = true))) →
      (∃ e, (CreateComment.perform env data db).1 = Except.error e) ∧
      (CreateComment.perform env data db).2 = db := by
  intro env data db hg
  generalize hrun : CreateComment.perform env data db = p
  unfold CreateComment.perform at hrun
  rcases hauth : env.auth with e | person
  · simp only [hauth] at hrun; subst hrun; simp
  · simp only [hauth] at hrun
    by_cases hls : env.localSiteOk = false
    · rw [if_pos hls] at hrun; subst hrun; simp
    · rw [if_neg hls] at hrun
      rcases hpost : env.post with e | post
      · simp only [hpost] at hrun; subst hrun; simp
      · simp only [hpost] at hrun
        rcases hg with hb | hc | hl | ⟨post2, hp2, hflags⟩
        · rw [if_pos hb] at hrun; subst hrun; simp
        · by_cases hban : env.banOk = false
          · rw [if_pos hban] at hrun; subst hrun; simp
          · rw [if_neg hban] at hrun
            rw [if_pos hc] at hrun; subst hrun; simp
        · by_cases hban : env.banOk = false
          · rw [if_pos hban] at hrun; subst hrun; simp
          · rw [if_neg hban] at hrun
            by_cases hcomm : env.communityOk = false
            · rw [if_pos hcomm] at hrun; subst hrun; simp
            · rw [if_neg hcomm] at hrun
              rcases hcp : check_post_deleted_or_removed post with e | uu
              · simp only [hcp] at hrun; subst hrun; simp
              · simp only [hcp] at hrun
                by_cases hlock : post.locked = true
                · rw [if_pos hlock] at hrun; subst hrun; simp
                · rw [if_neg hlock] at hrun
                  rcases hpid : data.parent_id with _ | pid
                  · simp only [hpid] at hrun
                    rw [if_neg Bool.false_ne_true] at hrun
                    by_cases hlang : env.languageAllowed = false
                    · rw [if_pos hlang] at hrun; subst hrun; simp
                    · exact absurd hl hlang
                  · simp only [hpid] at hrun
                    rcases hpr : env.parentRead with e | parent
                    · simp only [hpr, Except.toOption] at hrun
                      rw [if_neg Bool.false_ne_true] at hrun
                      by_cases hlang : env.languageAllowed = false
                      · rw [if_pos hlang] at hrun; subst hrun; simp
                      · exact absurd hl hlang
                    · simp only [hpr, Except.toOption] at hrun
                      by_cases hbne : (parent.post_id != data.post_id) = true
                      · rw [if_pos hbne] at hrun; subst hrun; simp
                      · rw [if_neg hbne] at hrun
                        by_cases hlang : env.languageAllowed = false
                        · rw [if_pos hlang] at hrun; subst hrun; simp
                        · exact absurd hl hlang
        · rw [hpost] at hp2
          injection hp2 with hpp
          subst hpp
          by_cases hban : env.banOk = false
          · rw [if_pos hban] at hrun; subst hrun; simp
          · rw [if_neg hban] at hrun
            by_cases hcomm : env.communityOk = false
            · rw [if_pos hcomm] at hrun; subst hrun; simp
            · rw [if_neg hcomm] at hrun
              rcases hcp : check_post_deleted_or_removed post with e | uu
              · simp only [hcp] at hrun; subst hrun; simp
              · rcases hflags with hd | hrm | hlk
                · simp [check_post_deleted_or_removed, hd] at hcp
                · simp [check_post_deleted_or_removed, hrm] at hcp
                · simp only [hcp] at hrun
                  by_cases hlock : post.locked = true
                  · rw [if_pos hlock] at hrun; subst hrun; simp
                  · exact absurd hlk hlock

theorem createComment_gates_before_insert_witness :
    (∃ e, (CreateComment.perform { sampleCreateEnv with banOk := false }
      sampleCreateData sampleDb).1 = Except.error e) ∧
    (CreateComment.perform { sampleCreateEnv with banOk := false }
      sampleCreateData sampleDb).2 = sampleDb :=
  createComment_gates_before_insert { sampleCreateEnv with banOk := false }
    sampleCreateData sampleDb (Or.inl rfl)

/-- C7: `DeleteCommunity::perform` never hard-removes the community record —
its only possible effect on stored objects is to set the community's
`deleted` flag to the request's value, leaving every other field of every
community and every other stored table unchanged. -/
theorem deleteCommunity_tombstone :
    ∀ (env : DeleteCommunityEnv) (data : DeleteCommunity) (db : DB),
      ((DeleteCommunity.perform env data db).2.communities = db.communities ∨
        (DeleteCommunity.perform env data db).2.communities =
          db.communities.map
            (fun c => if c.id = data.community_id then { c with deleted := data.deleted } else c)) ∧
      (DeleteCommunity.perform env data db).2.comments = db.comments ∧
      (DeleteCommunity.perform env data db).2.likes = db.likes ∧
      (DeleteCommunity.perform env data db).2.commentReplies = db.commentReplies ∧
      (DeleteCommunity.perform env data db).2.personMentions = db.personMentions ∧
      (DeleteCommunity.perform env data db).2.privateMessages = db.privateMessages ∧
      (DeleteCommunity.perform env data db).2.privateMessageReports = db.privateMessageReports := by
  intro env data db
  rcases hu : Community.update db data.community_id { deleted := some data.deleted }
    with ⟨res, db1⟩
  obtain ⟨hc, hr⟩ := communityUpdate_frame db data.community_id data.deleted res db1 hu
  unfold DeleteCommunity.perform
  simp only [hu]
  rcases res with _ | u <;> (repeat' split) <;> simp_all

/-- C8: the top-moderator authorization check of `DeleteCommunity::perform`
indexes `community_mods[0]` without an emptiness check: with an
authenticated caller and an empty moderator list the operation panics
(instead of returning an error), and a non-empty moderator list is exactly
what rules the panic out. -/
theorem deleteCommunity_empty_mods_panics :
    ∀ (env : DeleteCommunityEnv) (data : DeleteCommunity) (db : DB) (person : Person),
      (env.auth = Except.ok person → env.mods = Except.ok [] →
        DeleteCommunity.perform env data db = (DResult.panic, db)) ∧
      (∀ m ms, env.mods = Except.ok (m :: ms) →
        (DeleteCommunity.perform env data db).1 ≠ DResult.panic) := by
  intro env data db person
  constructor
  · intro h1 h2
    simp [DeleteCommunity.perform, h1, h2]
  · intro m ms h
    rcases hu : Community.update db data.community_id { deleted := some data.deleted }
      with ⟨res, db1⟩
    unfold DeleteCommunity.perform
    simp only [h, hu]
    rcases res with _ | u <;> (repeat' split) <;> simp_all

theorem deleteCommunity_empty_mods_panics_witness :
    DeleteCommunity.perform { sampleDeleteEnv with mods := Except.ok [] }
      sampleDeleteData sampleDeleteDb = (DResult.panic, sampleDeleteDb) :=
  (deleteCommunity_empty_mods_panics { sampleDeleteEnv with mods := Except.ok [] }
    sampleDeleteData sampleDeleteDb { id := 1 }).1 rfl rfl

end Lemmy
